import Mathlib

/-
Shallow embedding of the oneAPI LC0J evaluator
(native/lc0j_oneapi_jni.cpp): the LC0J ".bin" binary model parser,
device-buffer lifecycle (modelled by an allocation ledger with an
explicit success oracle for device operations), the SYCL kernel
pipeline, the single-position forward pass, and the JNI entry points
nativeCreate / nativeDestroy / nativeGetInfo / nativePredict.

Floats are modelled by exact rationals; `exp` is an abstract parameter
of the evaluation pipeline (the softmax / sigmoid theorems assume only
its positivity).  Machine `int32_t` values are modelled by `Int`,
decoded from little-endian bytes exactly as the loader reads them.
-/

namespace LC0J

/-- A device-resident buffer: an allocation identity (used by the
allocation ledger) together with the host data last uploaded to it. -/
structure DBuf (α : Type) where
  id : Nat
  data : List α
deriving DecidableEq, Repr

/-- Mirrors struct ConvLayer: channel counts, kernel size, device
weight/bias buffers, parameter count. -/
structure ConvLayer where
  inC : Int := 0
  outC : Int := 0
  k : Int := 0
  d_w : Option (DBuf ℚ) := none
  d_b : Option (DBuf ℚ) := none
  params : Int := 0
deriving DecidableEq, Repr

/-- Mirrors struct DenseLayer. -/
structure DenseLayer where
  inD : Int := 0
  outD : Int := 0
  d_w : Option (DBuf ℚ) := none
  d_b : Option (DBuf ℚ) := none
  params : Int := 0
deriving DecidableEq, Repr

/-- Mirrors struct SeUnit (squeeze-excite weights). -/
structure SeUnit where
  channels : Int := 0
  hidden : Int := 0
  d_w1 : Option (DBuf ℚ) := none
  d_b1 : Option (DBuf ℚ) := none
  d_w2 : Option (DBuf ℚ) := none
  d_b2 : Option (DBuf ℚ) := none
  params : Int := 0
deriving DecidableEq, Repr

/-- Mirrors struct ResidualBlock. -/
structure ResidualBlock where
  conv1 : ConvLayer := {}
  conv2 : ConvLayer := {}
  hasSe : Bool := false
  se : SeUnit := {}
deriving DecidableEq, Repr

/-- The eight int32 header fields of an LC0J ".bin" file, in file order. -/
structure Header where
  inputC : Int
  trunkC : Int
  blocks : Int
  policyC : Int
  valueC : Int
  valueHidden : Int
  policyMapLen : Int
  wdlOutputs : Int
deriving DecidableEq, Repr

/-- Mirrors struct SyclNet: header metadata, loaded layers, the policy
index map, and the device workspace buffers. -/
structure SyclNet where
  inputC : Int := 0
  trunkC : Int := 0
  blocks : Int := 0
  policyC : Int := 0
  valueC : Int := 0
  valueHidden : Int := 0
  policySize : Int := 0
  paramCount : Int := 0
  inputLayer : ConvLayer := {}
  tower : List ResidualBlock := []
  policyStem : ConvLayer := {}
  policyOut : ConvLayer := {}
  valueConv : ConvLayer := {}
  valueFc1 : DenseLayer := {}
  valueFc2 : DenseLayer := {}
  d_policyMap : Option (DBuf Int) := none
  policyMapLen : Int := 0
  d_policyMapped : Option (DBuf ℚ) := none
  d_in : Option (DBuf ℚ) := none
  d_cur : Option (DBuf ℚ) := none
  d_next : Option (DBuf ℚ) := none
  d_tmp : Option (DBuf ℚ) := none
  d_scratch : Option (DBuf ℚ) := none
  d_policyHidden : Option (DBuf ℚ) := none
  d_policyPlanes : Option (DBuf ℚ) := none
  d_valueInput : Option (DBuf ℚ) := none
  d_fc1 : Option (DBuf ℚ) := none
  d_logits : Option (DBuf ℚ) := none
  d_sePooled : Option (DBuf ℚ) := none
  d_seHidden : Option (DBuf ℚ) := none
  d_seGates : Option (DBuf ℚ) := none
  seMaxHidden : Int := 0
deriving DecidableEq, Repr

/-- Device state: a success oracle consulted once per device operation
(allocation or copy, modelling nondeterministic device failure), a
ticket counter into the oracle, a fresh-id counter, the ledger of live
allocation ids, and a flag recording an invalid free. -/
structure Dev where
  ok : Nat → Bool
  tick : Nat := 0
  fresh : Nat := 0
  live : List Nat := []
  freeErr : Bool := false

/-- Consume one oracle ticket. -/
def devStep (d : Dev) : Bool × Dev :=
  (d.ok d.tick, { d with tick := d.tick + 1 })

/-- Mirrors sycl_alloc: on success returns a fresh device buffer (not
yet uploaded) and records it in the ledger; on failure returns none. -/
def sycl_alloc {α : Type} (d : Dev) : Option (DBuf α) × Dev :=
  let (ok, d1) := devStep d
  if ok then
    (some ⟨d1.fresh, []⟩,
     { d1 with fresh := d1.fresh + 1, live := d1.fresh :: d1.live })
  else (none, d1)

/-- Mirrors sycl_copy_to_device: a blocking upload that either succeeds
(the buffer now holds src) or fails leaving the buffer allocated. -/
def sycl_copy {α : Type} (d : Dev) (b : Option (DBuf α)) (src : List α) :
    Bool × Option (DBuf α) × Dev :=
  let (ok, d1) := devStep d
  if ok then (true, b.map (fun bb => { bb with data := src }), d1)
  else (false, b, d1)

/-- Mirrors sycl_free: freeing a null buffer is a no-op; freeing a live
id removes it from the ledger; freeing anything else is flagged. -/
def freeBuf (d : Dev) (b : Option Nat) : Dev :=
  match b with
  | none => d
  | some i => if i ∈ d.live then { d with live := d.live.erase i }
              else { d with freeErr := true }

-- ---- file parsing helpers (LC0J .bin) ----
-- The byte stream is a list of bytes (naturals below 256).

/-- Mirrors read_u8: consume one byte. -/
def read_u8 : List Nat → Option (Nat × List Nat)
  | [] => none
  | b :: r => some (b, r)

/-- Value of four little-endian bytes as a signed 32-bit integer. -/
def i32val (b0 b1 b2 b3 : Nat) : Int :=
  let u : Nat := b0 % 256 + 256 * (b1 % 256) + 65536 * (b2 % 256) +
    16777216 * (b3 % 256)
  if u < 2147483648 then (u : Int) else (u : Int) - 4294967296

/-- Mirrors read_i32: consume four bytes, native little-endian int32. -/
def read_i32 : List Nat → Option (Int × List Nat)
  | b0 :: b1 :: b2 :: b3 :: r => some (i32val b0 b1 b2 b3, r)
  | _ => none

/-- Mirrors read_bytes: consume exactly n bytes or fail (short read). -/
def read_bytes (n : Nat) (s : List Nat) : Option (List Nat × List Nat) :=
  if n ≤ s.length then some (s.take n, s.drop n) else none

/-- IEEE-754 binary32 value of four little-endian bytes, as an exact
rational.  Exponent 255 (infinities and NaNs, representable in the file
but never constrained by any claim) is mapped to 0 since ℚ has no such
values. -/
def decode_f32 (b0 b1 b2 b3 : Nat) : ℚ :=
  let bits : Nat := b0 % 256 + 256 * (b1 % 256) + 65536 * (b2 % 256) +
    16777216 * (b3 % 256)
  let sgn : ℚ := if bits / 2147483648 % 2 = 1 then -1 else 1
  let e : Nat := bits / 8388608 % 256
  let m : Nat := bits % 8388608
  if e = 0 then sgn * m * (1 / 2 ^ 149)
  else if e = 255 then 0
  else sgn * (8388608 + m) * (2 ^ e / 2 ^ 150)

/-- Decode consecutive 4-byte groups as binary32 floats. -/
def decodeFloats : List Nat → List ℚ
  | b0 :: b1 :: b2 :: b3 :: r => decode_f32 b0 b1 b2 b3 :: decodeFloats r
  | _ => []

/-- Decode consecutive 4-byte groups as int32 values (the policy map). -/
def decodeInts : List Nat → List Int
  | b0 :: b1 :: b2 :: b3 :: r => i32val b0 b1 b2 b3 :: decodeInts r
  | _ => []

/-- Mirrors read_float_array: int32 element count (must be non-negative)
followed by that many 4-byte floats. -/
def read_float_array (s : List Nat) : Option (List ℚ × List Nat) :=
  match read_i32 s with
  | none => none
  | some (size, s1) =>
    if size < 0 then none
    else match read_bytes (4 * size.toNat) s1 with
      | none => none
      | some (bytes, s2) => some (decodeFloats bytes, s2)

/-- Mirrors load_conv.  Returns the (possibly partially populated)
layer, the remaining stream on success (none on failure), and the
device state.  On failure the already-allocated buffers stay recorded
in the returned layer, exactly as the C++ leaves them on the net for
destroy_net to release. -/
def load_conv (s : List Nat) (d : Dev) : ConvLayer × Option (List Nat) × Dev :=
  match read_i32 s with
  | none => ({}, none, d)
  | some (inC, s) =>
  match read_i32 s with
  | none => ({}, none, d)
  | some (outC, s) =>
  match read_i32 s with
  | none => ({}, none, d)
  | some (k, s) =>
  if inC ≤ 0 ∨ outC ≤ 0 ∨ (k ≠ 1 ∧ k ≠ 3) then ({}, none, d) else
  match read_float_array s with
  | none => (({ inC := inC, outC := outC, k := k } : ConvLayer), none, d)
  | some (w, s) =>
  match read_float_array s with
  | none => (({ inC := inC, outC := outC, k := k } : ConvLayer), none, d)
  | some (b, s) =>
  if (w.length : Int) ≠ outC * inC * k * k then
    (({ inC := inC, outC := outC, k := k } : ConvLayer), none, d) else
  if (b.length : Int) ≠ outC then
    (({ inC := inC, outC := outC, k := k } : ConvLayer), none, d) else
  let pc : Int := (w.length : Int) + (b.length : Int)
  let (dw, d) := sycl_alloc d
  match dw with
  | none =>
    (({ inC := inC, outC := outC, k := k, params := pc } : ConvLayer), none, d)
  | some _ =>
  let (db, d) := sycl_alloc d
  match db with
  | none =>
    (({ inC := inC, outC := outC, k := k, d_w := dw, params := pc } :
      ConvLayer), none, d)
  | some _ =>
  let (okw, dw2, d) := sycl_copy d dw w
  if okw = false then
    (({ inC := inC, outC := outC, k := k, d_w := dw2, d_b := db,
        params := pc } : ConvLayer), none, d) else
  let (okb, db2, d) := sycl_copy d db b
  let c : ConvLayer :=
    { inC := inC, outC := outC, k := k, d_w := dw2, d_b := db2, params := pc }
  if okb = false then (c, none, d) else
  (c, some s, d)

/-- Mirrors load_dense (expectedOut is the required outD). -/
def load_dense (s : List Nat) (expectedOut : Int) (d : Dev) :
    DenseLayer × Option (List Nat) × Dev :=
  match read_i32 s with
  | none => ({}, none, d)
  | some (inD, s) =>
  match read_i32 s with
  | none => ({}, none, d)
  | some (outD, s) =>
  if inD ≤ 0 ∨ outD ≤ 0 ∨ outD ≠ expectedOut then ({}, none, d) else
  let l0 : DenseLayer := { inD := inD, outD := outD }
  match read_float_array s with
  | none => (l0, none, d)
  | some (w, s) =>
  match read_float_array s with
  | none => (l0, none, d)
  | some (b, s) =>
  if (w.length : Int) ≠ outD * inD then (l0, none, d) else
  if (b.length : Int) ≠ outD then (l0, none, d) else
  let pc : Int := (w.length : Int) + (b.length : Int)
  let (dw, d) := sycl_alloc d
  match dw with
  | none => (({ inD := inD, outD := outD, params := pc } : DenseLayer), none, d)
  | some _ =>
  let (db, d) := sycl_alloc d
  match db with
  | none =>
    (({ inD := inD, outD := outD, d_w := dw, params := pc } : DenseLayer),
     none, d)
  | some _ =>
  let (okw, dw2, d) := sycl_copy d dw w
  if okw = false then
    (({ inD := inD, outD := outD, d_w := dw2, d_b := db, params := pc } :
      DenseLayer), none, d) else
  let (okb, db2, d) := sycl_copy d db b
  let l : DenseLayer :=
    { inD := inD, outD := outD, d_w := dw2, d_b := db2, params := pc }
  if okb = false then (l, none, d) else
  (l, some s, d)

/-- Mirrors load_se.  Returns the (possibly partial) SE unit, the
presence flag (set as soon as the flag byte is read, as the C++ does
through its by-reference argument), the remaining stream on success,
the device state, and the updated maxHidden.  Note, as in the source:
the four float-array element counts are NOT validated against
hidden/channels. -/
def load_se (s : List Nat) (channels : Int) (maxHidden : Int) (d : Dev) :
    SeUnit × Bool × Option (List Nat) × Dev × Int :=
  match read_u8 s with
  | none => ({}, false, none, d, maxHidden)
  | some (p, s) =>
  if p = 0 then ({}, false, some s, d, maxHidden) else
  match read_i32 s with
  | none => ({}, true, none, d, maxHidden)
  | some (hidden, s) =>
  match read_i32 s with
  | none => ({}, true, none, d, maxHidden)
  | some (expectedChannels, s) =>
  if expectedChannels ≠ channels then ({}, true, none, d, maxHidden) else
  match read_float_array s with
  | none => ({}, true, none, d, maxHidden)
  | some (w1, s) =>
  match read_float_array s with
  | none => ({}, true, none, d, maxHidden)
  | some (b1, s) =>
  match read_float_array s with
  | none => ({}, true, none, d, maxHidden)
  | some (w2, s) =>
  match read_float_array s with
  | none => ({}, true, none, d, maxHidden)
  | some (b2, s) =>
  let pc : Int := (w1.length : Int) + (b1.length : Int) + (w2.length : Int) +
    (b2.length : Int)
  let maxHidden := max maxHidden hidden
  let (dw1, d) := sycl_alloc d
  match dw1 with
  | none =>
    (({ channels := channels, hidden := hidden, params := pc } : SeUnit),
     true, none, d, maxHidden)
  | some _ =>
  let (db1, d) := sycl_alloc d
  match db1 with
  | none =>
    (({ channels := channels, hidden := hidden, d_w1 := dw1, params := pc } :
      SeUnit), true, none, d, maxHidden)
  | some _ =>
  let (dw2, d) := sycl_alloc d
  match dw2 with
  | none =>
    (({ channels := channels, hidden := hidden, d_w1 := dw1, d_b1 := db1,
        params := pc } : SeUnit), true, none, d, maxHidden)
  | some _ =>
  let (db2, d) := sycl_alloc d
  match db2 with
  | none =>
    (({ channels := channels, hidden := hidden, d_w1 := dw1, d_b1 := db1,
        d_w2 := dw2, params := pc } : SeUnit), true, none, d, maxHidden)
  | some _ =>
  let (ok1, bw1, d) := sycl_copy d dw1 w1
  if ok1 = false then
    (({ channels := channels, hidden := hidden, d_w1 := bw1, d_b1 := db1,
        d_w2 := dw2, d_b2 := db2, params := pc } : SeUnit),
     true, none, d, maxHidden) else
  let (ok2, bb1, d) := sycl_copy d db1 b1
  if ok2 = false then
    (({ channels := channels, hidden := hidden, d_w1 := bw1, d_b1 := bb1,
        d_w2 := dw2, d_b2 := db2, params := pc } : SeUnit),
     true, none, d, maxHidden) else
  let (ok3, bw2, d) := sycl_copy d dw2 w2
  if ok3 = false then
    (({ channels := channels, hidden := hidden, d_w1 := bw1, d_b1 := bb1,
        d_w2 := bw2, d_b2 := db2, params := pc } : SeUnit),
     true, none, d, maxHidden) else
  let (ok4, bb2, d) := sycl_copy d db2 b2
  let u : SeUnit :=
    { channels := channels, hidden := hidden, d_w1 := bw1, d_b1 := bb1,
      d_w2 := bw2, d_b2 := bb2, params := pc }
  if ok4 = false then (u, true, none, d, maxHidden) else
  (u, true, some s, d, maxHidden)

/-- The buffer ids destroy_net releases for a ConvLayer (freeConv). -/
def convIds (c : ConvLayer) : List (Option Nat) :=
  [c.d_w.map DBuf.id, c.d_b.map DBuf.id]

/-- The buffer ids destroy_net releases for a DenseLayer (freeDense). -/
def denseIds (l : DenseLayer) : List (Option Nat) :=
  [l.d_w.map DBuf.id, l.d_b.map DBuf.id]

/-- The buffer ids destroy_net releases for an SeUnit (freeSe). -/
def seIds (u : SeUnit) : List (Option Nat) :=
  [u.d_w1.map DBuf.id, u.d_b1.map DBuf.id, u.d_w2.map DBuf.id,
   u.d_b2.map DBuf.id]

/-- The buffer ids destroy_net releases for one tower block.  As in the
source, the SE buffers are released only when hasSe is set. -/
def blockIds (b : ResidualBlock) : List (Option Nat) :=
  convIds b.conv1 ++ convIds b.conv2 ++ (if b.hasSe then seIds b.se else [])

/-- All buffer ids destroy_net releases, in the order the source frees
them. -/
def netIds (n : SyclNet) : List (Option Nat) :=
  convIds n.inputLayer ++ (n.tower.map blockIds).flatten ++
  convIds n.policyStem ++ convIds n.policyOut ++ convIds n.valueConv ++
  denseIds n.valueFc1 ++ denseIds n.valueFc2 ++
  [n.d_policyMap.map DBuf.id, n.d_policyMapped.map DBuf.id,
   n.d_in.map DBuf.id, n.d_cur.map DBuf.id, n.d_next.map DBuf.id,
   n.d_tmp.map DBuf.id, n.d_scratch.map DBuf.id,
   n.d_policyHidden.map DBuf.id, n.d_policyPlanes.map DBuf.id,
   n.d_valueInput.map DBuf.id, n.d_fc1.map DBuf.id,
   n.d_logits.map DBuf.id, n.d_sePooled.map DBuf.id,
   n.d_seHidden.map DBuf.id, n.d_seGates.map DBuf.id]

/-- Mirrors destroy_net: release every owned device buffer (a null
buffer is a no-op) and delete the host object. -/
def destroy_net (n : SyclNet) (d : Dev) : Dev :=
  (netIds n).foldl freeBuf d

/-- Outcome of nativeCreate: either a returned value (a handle or null)
or a crash (an exception escaping the JNI boundary, which the source
hits when std::vector::resize is called with a negative count cast to
size_t). -/
inductive CResult where
  | crash : CResult
  | ret : Option SyclNet → CResult
deriving DecidableEq, Repr

/-- The header-reading prefix of create_net: magic "LC0J", int32
version 1, then the eight int32 header fields in fixed order. -/
def parse_header (s : List Nat) : Option (Header × List Nat) :=
  match read_bytes 4 s with
  | none => none
  | some (magic, s) =>
  if magic ≠ [76, 67, 48, 74] then none else
  match read_i32 s with
  | none => none
  | some (version, s) =>
  if version ≠ 1 then none else
  match read_i32 s with
  | none => none
  | some (inputC, s) =>
  match read_i32 s with
  | none => none
  | some (trunkC, s) =>
  match read_i32 s with
  | none => none
  | some (blocks, s) =>
  match read_i32 s with
  | none => none
  | some (policyC, s) =>
  match read_i32 s with
  | none => none
  | some (valueC, s) =>
  match read_i32 s with
  | none => none
  | some (valueHidden, s) =>
  match read_i32 s with
  | none => none
  | some (policyMapLen, s) =>
  match read_i32 s with
  | none => none
  | some (wdlOutputs, s) =>
  some ({ inputC := inputC, trunkC := trunkC, blocks := blocks,
          policyC := policyC, valueC := valueC, valueHidden := valueHidden,
          policyMapLen := policyMapLen, wdlOutputs := wdlOutputs }, s)

/-- The residual-tower loading loop of create_net.  Returns the tower
list as destroy_net will see it (on failure the partially loaded block
is included, followed by the default-initialized entries the resize
created), the remaining stream on success, the device state and the
running maxHidden.  As in the source, hasSe is assigned only after
load_se succeeds; a block whose load_se failed keeps hasSe false. -/
def load_tower : Nat → List Nat → Dev → Int →
    List ResidualBlock × Option (List Nat) × Dev × Int
  | 0, s, d, maxH => ([], some s, d, maxH)
  | n + 1, s, d, maxH =>
    let (c1, os, d) := load_conv s d
    match os with
    | none =>
      ({ conv1 := c1 } :: List.replicate n {}, none, d, maxH)
    | some s =>
    let (c2, os, d) := load_conv s d
    match os with
    | none =>
      ({ conv1 := c1, conv2 := c2 } :: List.replicate n {}, none, d, maxH)
    | some s =>
    let (se, present, os, d, maxH) := load_se s c2.outC maxH d
    match os with
    | none =>
      ({ conv1 := c1, conv2 := c2, hasSe := false, se := se } ::
        List.replicate n {}, none, d, maxH)
    | some s =>
    let b : ResidualBlock :=
      { conv1 := c1, conv2 := c2, hasSe := present, se := se }
    let (rest, os, d, maxH) := load_tower n s d maxH
    (b :: rest, os, d, maxH)

/-- Parameter count accumulated over the loaded tower, as create_net
adds it block by block (SE parameters only when the block has SE). -/
def towerParams (tw : List ResidualBlock) : Int :=
  tw.foldl
    (fun a b => a + b.conv1.params + b.conv2.params +
      (if b.hasSe then b.se.params else 0)) 0

/-- Net state right after the eight header fields are assigned
(policySize is set to policyMapLen at that point). -/
def hdNet (hd : Header) : SyclNet :=
  { inputC := hd.inputC, trunkC := hd.trunkC, blocks := hd.blocks,
    policyC := hd.policyC, valueC := hd.valueC,
    valueHidden := hd.valueHidden, policyMapLen := hd.policyMapLen,
    policySize := hd.policyMapLen }

/-- Net state once every layer record is loaded: all layers attached
and paramCount fully accumulated (input conv, tower, the three head
convolutions and the two dense layers). -/
def recNet (hd : Header) (cIn : ConvLayer) (tower : List ResidualBlock)
    (maxH : Int) (ps po vc : ConvLayer) (fc1 fc2 : DenseLayer) : SyclNet :=
  { hdNet hd with
    inputLayer := cIn,
    tower := tower,
    seMaxHidden := maxH,
    policyStem := ps,
    policyOut := po,
    valueConv := vc,
    valueFc1 := fc1,
    valueFc2 := fc2,
    paramCount := cIn.params + towerParams tower + ps.params + po.params +
      vc.params + fc1.params + fc2.params }

/-- The body of create_net after the header has been read and
validated: layer records, policy map, EOF check, workspace
allocations.  Any failure releases everything allocated so far through
destroy_net (the source's fail lambda) and returns null.  The source
mutates one net object field by field; here every branch passes
destroy_net (or returns) the explicit record state the net has at that
point, built flat through hdNet / recNet.  paramCount is only ever
observed on the success path, where it equals the source's running
accumulation. -/
def create_net_body (hd : Header) (s : List Nat) (d : Dev) : CResult × Dev :=
  let (cIn, os, d) := load_conv s d
  match os with
  | none =>
    (.ret none, destroy_net
      { hdNet hd with
        inputLayer := cIn } d)
  | some s =>
  -- tower.resize(static_cast<size_t>(blocks)): a negative block count
  -- casts to a huge size_t and the uncaught length_error is a crash.
  if hd.blocks < 0 then (.crash, d) else
  let (tower, os, d, maxH) := load_tower hd.blocks.toNat s d 0
  match os with
  | none =>
    (.ret none, destroy_net
      { hdNet hd with
        inputLayer := cIn,
        tower := tower,
        seMaxHidden := maxH } d)
  | some s =>
  let (ps, os, d) := load_conv s d
  match os with
  | none =>
    (.ret none, destroy_net
      { hdNet hd with
        inputLayer := cIn,
        tower := tower,
        seMaxHidden := maxH,
        policyStem := ps } d)
  | some s =>
  let (po, os, d) := load_conv s d
  match os with
  | none =>
    (.ret none, destroy_net
      { hdNet hd with
        inputLayer := cIn,
        tower := tower,
        seMaxHidden := maxH,
        policyStem := ps,
        policyOut := po } d)
  | some s =>
  let (vc, os, d) := load_conv s d
  match os with
  | none =>
    (.ret none, destroy_net
      { hdNet hd with
        inputLayer := cIn,
        tower := tower,
        seMaxHidden := maxH,
        policyStem := ps,
        policyOut := po,
        valueConv := vc } d)
  | some s =>
  if po.outC ≠ hd.policyC then
    (.ret none, destroy_net
      { hdNet hd with
        inputLayer := cIn,
        tower := tower,
        seMaxHidden := maxH,
        policyStem := ps,
        policyOut := po,
        valueConv := vc } d) else
  if vc.outC ≠ hd.valueC then
    (.ret none, destroy_net
      { hdNet hd with
        inputLayer := cIn,
        tower := tower,
        seMaxHidden := maxH,
        policyStem := ps,
        policyOut := po,
        valueConv := vc } d) else
  let (fc1, os, d) := load_dense s hd.valueHidden d
  match os with
  | none =>
    (.ret none, destroy_net
      { hdNet hd with
        inputLayer := cIn,
        tower := tower,
        seMaxHidden := maxH,
        policyStem := ps,
        policyOut := po,
        valueConv := vc,
        valueFc1 := fc1 } d)
  | some s =>
  let (fc2, os, d) := load_dense s 3 d
  match os with
  | none => (.ret none, destroy_net (recNet hd cIn tower maxH ps po vc fc1 fc2) d)
  | some s =>
  -- policy map
  match read_i32 s with
  | none => (.ret none, destroy_net (recNet hd cIn tower maxH ps po vc fc1 fc2) d)
  | some (mapEntries, s) =>
  if mapEntries ≠ hd.policyMapLen then
    (.ret none, destroy_net (recNet hd cIn tower maxH ps po vc fc1 fc2) d) else
  -- std::vector<int32_t> policyMap(static_cast<size_t>(mapEntries)):
  -- a negative count casts to a huge size_t and crashes.
  if mapEntries < 0 then (.crash, d) else
  match read_bytes (4 * mapEntries.toNat) s with
  | none => (.ret none, destroy_net (recNet hd cIn tower maxH ps po vc fc1 fc2) d)
  | some (mapBytes, s) =>
  let policyMap := decodeInts mapBytes
  let (pm, d) := @sycl_alloc Int d
  match pm with
  | none => (.ret none, destroy_net (recNet hd cIn tower maxH ps po vc fc1 fc2) d)
  | some _ =>
  let (okm, pm2, d) := sycl_copy d pm policyMap
  if okm = false then
    (.ret none, destroy_net
      { recNet hd cIn tower maxH ps po vc fc1 fc2 with
        d_policyMap := pm2 } d) else
  -- ensure EOF: trailing bytes are treated as error.
  if s ≠ [] then
    (.ret none, destroy_net
      { recNet hd cIn tower maxH ps po vc fc1 fc2 with
        d_policyMap := pm2 } d) else
  -- workspace allocations (d_seHidden is sized max(seMaxHidden, 1);
  -- sizes are not tracked by the ledger, so both branches are one
  -- allocation)
  let (b1, d) := @sycl_alloc ℚ d
  match b1 with
  | none =>
    (.ret none, destroy_net
      { recNet hd cIn tower maxH ps po vc fc1 fc2 with
        d_policyMap := pm2 } d)
  | some _ =>
  let (b2, d) := @sycl_alloc ℚ d
  match b2 with
  | none =>
    (.ret none, destroy_net
      { recNet hd cIn tower maxH ps po vc fc1 fc2 with
        d_policyMap := pm2,
        d_in := b1 } d)
  | some _ =>
  let (b3, d) := @sycl_alloc ℚ d
  match b3 with
  | none =>
    (.ret none, destroy_net
      { recNet hd cIn tower maxH ps po vc fc1 fc2 with
        d_policyMap := pm2,
        d_in := b1,
        d_cur := b2 } d)
  | some _ =>
  let (b4, d) := @sycl_alloc ℚ d
  match b4 with
  | none =>
    (.ret none, destroy_net
      { recNet hd cIn tower maxH ps po vc fc1 fc2 with
        d_policyMap := pm2,
        d_in := b1,
        d_cur := b2,
        d_next := b3 } d)
  | some _ =>
  let (b5, d) := @sycl_alloc ℚ d
  match b5 with
  | none =>
    (.ret none, destroy_net
      { recNet hd cIn tower maxH ps po vc fc1 fc2 with
        d_policyMap := pm2,
        d_in := b1,
        d_cur := b2,
        d_next := b3,
        d_tmp := b4 } d)
  | some _ =>
  let (b6, d) := @sycl_alloc ℚ d
  match b6 with
  | none =>
    (.ret none, destroy_net
      { recNet hd cIn tower maxH ps po vc fc1 fc2 with
        d_policyMap := pm2,
        d_in := b1,
        d_cur := b2,
        d_next := b3,
        d_tmp := b4,
        d_scratch := b5 } d)
  | some _ =>
  let (b7, d) := @sycl_alloc ℚ d
  match b7 with
  | none =>
    (.ret none, destroy_net
      { recNet hd cIn tower maxH ps po vc fc1 fc2 with
        d_policyMap := pm2,
        d_in := b1,
        d_cur := b2,
        d_next := b3,
        d_tmp := b4,
        d_scratch := b5,
        d_policyHidden := b6 } d)
  | some _ =>
  let (b8, d) := @sycl_alloc ℚ d
  match b8 with
  | none =>
    (.ret none, destroy_net
      { recNet hd cIn tower maxH ps po vc fc1 fc2 with
        d_policyMap := pm2,
        d_in := b1,
        d_cur := b2,
        d_next := b3,
        d_tmp := b4,
        d_scratch := b5,
        d_policyHidden := b6,
        d_policyPlanes := b7 } d)
  | some _ =>
  let (b9, d) := @sycl_alloc ℚ d
  match b9 with
  | none =>
    (.ret none, destroy_net
      { recNet hd cIn tower maxH ps po vc fc1 fc2 with
        d_policyMap := pm2,
        d_in := b1,
        d_cur := b2,
        d_next := b3,
        d_tmp := b4,
        d_scratch := b5,
        d_policyHidden := b6,
        d_policyPlanes := b7,
        d_valueInput := b8 } d)
  | some _ =>
  let (b10, d) := @sycl_alloc ℚ d
  match b10 with
  | none =>
    (.ret none, destroy_net
      { recNet hd cIn tower maxH ps po vc fc1 fc2 with
        d_policyMap := pm2,
        d_in := b1,
        d_cur := b2,
        d_next := b3,
        d_tmp := b4,
        d_scratch := b5,
        d_policyHidden := b6,
        d_policyPlanes := b7,
        d_valueInput := b8,
        d_fc1 := b9 } d)
  | some _ =>
  let (b11, d) := @sycl_alloc ℚ d
  match b11 with
  | none =>
    (.ret none, destroy_net
      { recNet hd cIn tower maxH ps po vc fc1 fc2 with
        d_policyMap := pm2,
        d_in := b1,
        d_cur := b2,
        d_next := b3,
        d_tmp := b4,
        d_scratch := b5,
        d_policyHidden := b6,
        d_policyPlanes := b7,
        d_valueInput := b8,
        d_fc1 := b9,
        d_logits := b10 } d)
  | some _ =>
  let (b12, d) := @sycl_alloc ℚ d
  match b12 with
  | none =>
    (.ret none, destroy_net
      { recNet hd cIn tower maxH ps po vc fc1 fc2 with
        d_policyMap := pm2,
        d_in := b1,
        d_cur := b2,
        d_next := b3,
        d_tmp := b4,
        d_scratch := b5,
        d_policyHidden := b6,
        d_policyPlanes := b7,
        d_valueInput := b8,
        d_fc1 := b9,
        d_logits := b10,
        d_sePooled := b11 } d)
  | some _ =>
  let (b13, d) := @sycl_alloc ℚ d
  match b13 with
  | none =>
    (.ret none, destroy_net
      { recNet hd cIn tower maxH ps po vc fc1 fc2 with
        d_policyMap := pm2,
        d_in := b1,
        d_cur := b2,
        d_next := b3,
        d_tmp := b4,
        d_scratch := b5,
        d_policyHidden := b6,
        d_policyPlanes := b7,
        d_valueInput := b8,
        d_fc1 := b9,
        d_logits := b10,
        d_sePooled := b11,
        d_seHidden := b12 } d)
  | some _ =>
  let (b14, d) := @sycl_alloc ℚ d
  match b14 with
  | none =>
    (.ret none, destroy_net
      { recNet hd cIn tower maxH ps po vc fc1 fc2 with
        d_policyMap := pm2,
        d_in := b1,
        d_cur := b2,
        d_next := b3,
        d_tmp := b4,
        d_scratch := b5,
        d_policyHidden := b6,
        d_policyPlanes := b7,
        d_valueInput := b8,
        d_fc1 := b9,
        d_logits := b10,
        d_sePooled := b11,
        d_seHidden := b12,
        d_seGates := b13 } d)
  | some _ =>
  (.ret (some
    { recNet hd cIn tower maxH ps po vc fc1 fc2 with
      d_policyMap := pm2,
      d_in := b1,
      d_cur := b2,
      d_next := b3,
      d_tmp := b4,
      d_scratch := b5,
      d_policyHidden := b6,
      d_policyPlanes := b7,
      d_valueInput := b8,
      d_fc1 := b9,
      d_logits := b10,
      d_sePooled := b11,
      d_seHidden := b12,
      d_seGates := b13,
      d_policyMapped := b14 }), d)


/-- Mirrors create_net: device presence check, file open, magic and
version checks, header, then the record pipeline.  devPresent models
device_count() > 0 together with select_intel_gpu and queue creation;
file is none when the path cannot be opened. -/
def create_net (devPresent : Bool) (file : Option (List Nat)) (d : Dev) :
    CResult × Dev :=
  if devPresent = false then (.ret none, d) else
  match file with
  | none => (.ret none, d)
  | some s =>
  match parse_header s with
  | none => (.ret none, d)
  | some (hd, s) =>
  if hd.wdlOutputs ≠ 3 then (.ret none, d) else
  create_net_body hd s d

/-- Mirrors Java_chess_lc0_oneapi_Backend_nativeGetInfo: null handle
gives null, otherwise the seven metadata values in fixed order. -/
def nativeGetInfo (h : Option SyclNet) : Option (List Int) :=
  match h with
  | none => none
  | some net =>
    some [net.inputC, net.trunkC, net.blocks, net.policyC, net.valueC,
          net.policySize, net.paramCount]

-- ---- SYCL kernels ----
-- Device tensors are modelled as functions from flat element index to
-- value; a kernel over a C*64 domain yields the written values on that
-- domain.  Reading a device buffer through its host-side contents uses
-- bufFn below (out-of-range device reads, undefined behaviour in the
-- source, read as 0 here).

/-- Contents of a float device buffer as an indexed function. -/
def bufFn (b : Option (DBuf ℚ)) : Nat → ℚ :=
  fun i => ((b.map DBuf.data).getD []).getD i 0

/-- Contents of an int device buffer as an indexed function. -/
def ibufFn (b : Option (DBuf Int)) : Nat → Int :=
  fun i => ((b.map DBuf.data).getD []).getD i 0

/-- Mirrors relu: x > 0 ? x : 0. -/
def relu (x : ℚ) : ℚ := if 0 < x then x else 0

/-- Mirrors sigmoid, over an abstract exponential ex. -/
def sigmoid (ex : ℚ → ℚ) (x : ℚ) : ℚ := 1 / (1 + ex (-x))

/-- One ky iteration of the k_conv3x3_no_bias inner loops, translated
with the source's explicit weight-index bookkeeping: the state is
(accumulator, wIdx); a row outside the board advances wIdx by 3
(wIdx += 3; continue), and every kx iteration advances wIdx by 1
whether or not the column is inside the board (the kx++, wIdx++ loop
header). -/
def conv3x3Row (input w : Nat → ℚ) (inBase wBase row col : Nat)
    (st : ℚ × Nat) (ky : Nat) : ℚ × Nat :=
  if (row : Int) + (ky : Int) - 1 < 0 ∨ 8 ≤ (row : Int) + (ky : Int) - 1 then
    (st.1, st.2 + 3)
  else
    (List.range 3).foldl
      (fun st2 kx =>
        if (col : Int) + (kx : Int) - 1 < 0 ∨ 8 ≤ (col : Int) + (kx : Int) - 1 then
          (st2.1, st2.2 + 1)
        else
          (st2.1 + input (inBase + ((row : Int) + (ky : Int) - 1).toNat * 8 +
              ((col : Int) + (kx : Int) - 1).toNat) * w (wBase + st2.2),
           st2.2 + 1))
      st

/-- The per-input-channel contribution of k_conv3x3_no_bias: the 3x3
neighborhood loops with the running weight index, starting from
accumulator 0 and wIdx 0. -/
def conv3x3Cell (input w : Nat → ℚ) (inBase wBase row col : Nat) : ℚ :=
  ((List.range 3).foldl (conv3x3Row input w inBase wBase row col)
    ((0 : ℚ), (0 : Nat))).1

/-- Mirrors k_conv3x3_no_bias over the outC*64 domain. -/
def k_conv3x3_no_bias (input w : Nat → ℚ) (inC outC : Nat) : Nat → ℚ :=
  fun idx =>
    if idx < outC * 64 then
      let oc := idx / 64
      let s := idx % 64
      let row := s / 8
      let col := s % 8
      (List.range inC).foldl
        (fun acc ic =>
          acc + conv3x3Cell input w (ic * 64) (oc * inC * 9 + ic * 9) row col)
        0
    else 0

/-- Mirrors k_conv1x1_no_bias: pointwise channel mixing. -/
def k_conv1x1_no_bias (input w : Nat → ℚ) (inC outC : Nat) : Nat → ℚ :=
  fun idx =>
    if idx < outC * 64 then
      ∑ ic ∈ Finset.range inC, input (ic * 64 + idx % 64) * w (idx / 64 * inC + ic)
    else 0

/-- Mirrors k_add_bias_relu (in place over channels*64). -/
def k_add_bias_relu (x b : Nat → ℚ) (channels : Nat) : Nat → ℚ :=
  fun idx => if idx < channels * 64 then relu (x idx + b (idx / 64)) else x idx

/-- Mirrors k_add_bias (in place, no activation). -/
def k_add_bias (x b : Nat → ℚ) (channels : Nat) : Nat → ℚ :=
  fun idx => if idx < channels * 64 then x idx + b (idx / 64) else x idx

/-- Mirrors k_add_residual_relu: dest = relu(convOut + bias + residual). -/
def k_add_residual_relu (convOut bias residual : Nat → ℚ) (channels : Nat) :
    Nat → ℚ :=
  fun idx =>
    if idx < channels * 64 then
      relu (convOut idx + bias (idx / 64) + residual idx)
    else 0

/-- Mirrors k_se_pool: per-channel mean over the 64 squares plus the
convolution bias.  The device computes the sum with a barrier-
synchronized reduction tree over the 64 lanes; in exact arithmetic the
tree produces this sum. -/
def k_se_pool (convOut bias : Nat → ℚ) (channels : Nat) : Nat → ℚ :=
  fun ch =>
    if ch < channels then
      (∑ t ∈ Finset.range 64, convOut (ch * 64 + t)) * (1 / 64) + bias ch
    else 0

/-- Mirrors k_se_fc1: dense channels -> hidden with relu. -/
def k_se_fc1 (pooled w1 b1 : Nat → ℚ) (channels hidden : Nat) : Nat → ℚ :=
  fun h =>
    if h < hidden then
      relu (b1 h + ∑ ch ∈ Finset.range channels, w1 (h * channels + ch) * pooled ch)
    else 0

/-- Mirrors k_se_fc2: dense hidden -> outDim, no activation. -/
def k_se_fc2 (hiddenVec w2 b2 : Nat → ℚ) (hidden outDim : Nat) : Nat → ℚ :=
  fun o =>
    if o < outDim then
      b2 o + ∑ hh ∈ Finset.range hidden, w2 (o * hidden + hh) * hiddenVec hh
    else 0

/-- Mirrors k_se_apply: per square,
dest = relu(sigmoid(gates[ch]) * (convOut + bias[ch]) + residual +
gates[ch + channels]). -/
def k_se_apply (ex : ℚ → ℚ) (convOut bias residual gates : Nat → ℚ)
    (channels : Nat) : Nat → ℚ :=
  fun idx =>
    if idx < channels * 64 then
      let ch := idx / 64
      relu (sigmoid ex (gates ch) * (convOut idx + bias ch) + residual idx +
        gates (ch + channels))
    else 0

/-- Mirrors k_policy_map: gather the dense policy vector; an index
outside [0, planesLen) yields 0.0. -/
def k_policy_map (planes : Nat → ℚ) (planesLen : Int) (pmap : Nat → Int)
    (outLen : Nat) : Nat → ℚ :=
  fun i =>
    if i < outLen then
      if 0 ≤ pmap i ∧ pmap i < planesLen then planes (pmap i).toNat else 0
    else 0

/-- Mirrors k_dense: y = W x + b with optional relu. -/
def k_dense (x w b : Nat → ℚ) (inD outD : Nat) (reluAct : Bool) : Nat → ℚ :=
  fun o =>
    if o < outD then
      let acc := b o + ∑ i ∈ Finset.range inD, w (o * inD + i) * x i
      if reluAct then relu acc else acc
    else 0

/-- Mirrors launch_conv_no_bias: dispatch on kernel size.  For a size
other than 1 or 3 the source launches nothing (never reached for a
loaded net, whose kernel sizes are validated). -/
def launch_conv_no_bias (layer : ConvLayer) (input : Nat → ℚ) : Nat → ℚ :=
  if layer.k = 3 then
    k_conv3x3_no_bias input (bufFn layer.d_w) layer.inC.toNat layer.outC.toNat
  else if layer.k = 1 then
    k_conv1x1_no_bias input (bufFn layer.d_w) layer.inC.toNat layer.outC.toNat
  else fun _ => 0

-- ---- forward pass (eval_one), stage by stage ----

/-- conv1 of a residual block followed by fused bias+relu. -/
def blockConv1Out (b : ResidualBlock) (cur : Nat → ℚ) : Nat → ℚ :=
  k_add_bias_relu (launch_conv_no_bias b.conv1 cur) (bufFn b.conv1.d_b)
    b.conv1.outC.toNat

/-- conv2 of a residual block (no bias yet). -/
def blockConv2Out (b : ResidualBlock) (cur : Nat → ℚ) : Nat → ℚ :=
  launch_conv_no_bias b.conv2 (blockConv1Out b cur)

/-- The SE gate vector of a block: pool, fc1, fc2 (length
2*conv2.outC; index < channels is a gate logit, index >= channels an
additive offset). -/
def blockSeGates (b : ResidualBlock) (cur : Nat → ℚ) : Nat → ℚ :=
  k_se_fc2
    (k_se_fc1 (k_se_pool (blockConv2Out b cur) (bufFn b.conv2.d_b)
        b.conv2.outC.toNat)
      (bufFn b.se.d_w1) (bufFn b.se.d_b1) b.conv2.outC.toNat b.se.hidden.toNat)
    (bufFn b.se.d_w2) (bufFn b.se.d_b2) b.se.hidden.toNat
    (2 * b.conv2.outC).toNat

/-- One residual-tower iteration of eval_one: conv1+bias+relu, conv2,
then either the plain residual fusion or the SE pipeline. -/
def blockStep (ex : ℚ → ℚ) (b : ResidualBlock) (cur : Nat → ℚ) : Nat → ℚ :=
  if b.hasSe = false then
    k_add_residual_relu (blockConv2Out b cur) (bufFn b.conv2.d_b) cur
      b.conv2.outC.toNat
  else
    k_se_apply ex (blockConv2Out b cur) (bufFn b.conv2.d_b) cur
      (blockSeGates b cur) b.conv2.outC.toNat

/-- Trunk activation after the input stem and the residual tower. -/
def trunkOutOf (ex : ℚ → ℚ) (net : SyclNet) (enc : List ℚ) : Nat → ℚ :=
  let dIn : Nat → ℚ := fun i => enc.getD i 0
  let stem := k_add_bias_relu (launch_conv_no_bias net.inputLayer dIn)
    (bufFn net.inputLayer.d_b) net.inputLayer.outC.toNat
  (List.range net.blocks.toNat).foldl
    (fun cur bi => blockStep ex (net.tower.getD bi {}) cur) stem

/-- Policy head stem output (conv + bias + relu). -/
def policyHiddenOf (ex : ℚ → ℚ) (net : SyclNet) (enc : List ℚ) : Nat → ℚ :=
  k_add_bias_relu (launch_conv_no_bias net.policyStem (trunkOutOf ex net enc))
    (bufFn net.policyStem.d_b) net.policyStem.outC.toNat

/-- Policy planes: policy-output conv + bias (no activation). -/
def policyPlanesOf (ex : ℚ → ℚ) (net : SyclNet) (enc : List ℚ) : Nat → ℚ :=
  k_add_bias (launch_conv_no_bias net.policyOut (policyHiddenOf ex net enc))
    (bufFn net.policyOut.d_b) net.policyOut.outC.toNat

/-- The remapped dense policy vector (device side). -/
def policyMappedOf (ex : ℚ → ℚ) (net : SyclNet) (enc : List ℚ) : Nat → ℚ :=
  k_policy_map (policyPlanesOf ex net enc) (net.policyOut.outC * 64)
    (ibufFn net.d_policyMap) net.policySize.toNat

/-- The policy output copied back to the host: policySize entries. -/
def policyListOf (ex : ℚ → ℚ) (net : SyclNet) (enc : List ℚ) : List ℚ :=
  (List.range net.policySize.toNat).map (policyMappedOf ex net enc)

/-- Value-head convolution output (conv + bias + relu). -/
def valueInputOf (ex : ℚ → ℚ) (net : SyclNet) (enc : List ℚ) : Nat → ℚ :=
  k_add_bias_relu (launch_conv_no_bias net.valueConv (trunkOutOf ex net enc))
    (bufFn net.valueConv.d_b) net.valueConv.outC.toNat

/-- The three value-head logits: fc1 (relu) then fc2 (no activation). -/
def valueLogitsOf (ex : ℚ → ℚ) (net : SyclNet) (enc : List ℚ) : Nat → ℚ :=
  let fc1 := k_dense (valueInputOf ex net enc) (bufFn net.valueFc1.d_w)
    (bufFn net.valueFc1.d_b) net.valueFc1.inD.toNat net.valueFc1.outD.toNat true
  k_dense fc1 (bufFn net.valueFc2.d_w) (bufFn net.valueFc2.d_b)
    net.valueFc2.inD.toNat net.valueFc2.outD.toNat false

/-- The host-side softmax of eval_one over three logits, with the
maximum subtracted before exponentiating and the s > 0 guard, exactly
as in the source. -/
def softmax3 (ex : ℚ → ℚ) (x0 x1 x2 : ℚ) : ℚ × ℚ × ℚ :=
  let m := max x0 (max x1 x2)
  let e0 := ex (x0 - m)
  let e1 := ex (x1 - m)
  let e2 := ex (x2 - m)
  let s := e0 + e1 + e2
  (if 0 < s then e0 / s else 0,
   if 0 < s then e1 / s else 0,
   if 0 < s then e2 / s else 0)

/-- Mirrors eval_one.  cIn, cPol, cLog are the success oracles of the
three blocking copies (input upload, policy download, logits
download); any failing copy aborts with none, as does the source's
hard requirement inputC == 112.  On success: the policy vector, the
WDL triple, and the scalar value w - l. -/
def eval_one (ex : ℚ → ℚ) (net : SyclNet) (enc : List ℚ)
    (cIn cPol cLog : Bool) : Option (List ℚ × (ℚ × ℚ × ℚ) × ℚ) :=
  if net.inputC ≠ 112 then none else
  if cIn = false then none else
  if cPol = false then none else
  if cLog = false then none else
  let lg := valueLogitsOf ex net enc
  let wdl := softmax3 ex (lg 0) (lg 1) (lg 2)
  some (policyListOf ex net enc, wdl, wdl.1 - wdl.2.2)

/-- Mirrors Java_chess_lc0_oneapi_Backend_nativePredict.  Arguments
are the handle and the three Java arrays (none models a null
reference); the result is the scalar return value together with the
post-call contents of policyOut and wdlOut.  The output arrays are
written only after eval_one fully succeeds. -/
def nativePredict (ex : ℚ → ℚ) (h : Option SyclNet)
    (enc pol wdl : Option (List ℚ)) (cIn cPol cLog : Bool) :
    ℚ × Option (List ℚ) × Option (List ℚ) :=
  match h with
  | none => (0, pol, wdl)
  | some net =>
  match enc, pol, wdl with
  | some encA, some polA, some wdlA =>
    if (encA.length : Int) ≠ net.inputC * 64 then (0, pol, wdl)
    else if (polA.length : Int) ≠ net.policySize then (0, pol, wdl)
    else if (wdlA.length : Int) ≠ 3 then (0, pol, wdl)
    else
      match eval_one ex net encA cIn cPol cLog with
      | none => (0, pol, wdl)
      | some (policy, (w, dd, l), v) => (v, some policy, some [w, dd, l])
  | _, _, _ => (0, pol, wdl)

-- ---- concrete instances used by counterexamples and witnesses ----

/-- Little-endian 4-byte encoding of a small non-negative value. -/
def le32 (v : Nat) : List Nat :=
  [v % 256, v / 256 % 256, v / 65536 % 256, v / 16777216 % 256]

/-- Bytes of n IEEE-754 binary32 zeros. -/
def fzeros (n : Nat) : List Nat := List.replicate (4 * n) 0

/-- A 1x1x1 convolution record with zero weight and bias. -/
def convRecB : List Nat :=
  le32 1 ++ le32 1 ++ le32 1 ++ (le32 1 ++ fzeros 1) ++ (le32 1 ++ fzeros 1)

/-- A 1-in 1-out dense record with zero weight and bias. -/
def denseRec1B : List Nat :=
  le32 1 ++ le32 1 ++ (le32 1 ++ fzeros 1) ++ (le32 1 ++ fzeros 1)

/-- A 1-in 3-out dense record with zero weights and biases. -/
def denseRec3B : List Nat :=
  le32 1 ++ le32 3 ++ (le32 3 ++ fzeros 3) ++ (le32 3 ++ fzeros 3)

/-- A well-formed LC0J v1 file: inputC=1, trunkC=1, blocks=0,
policyC=1, valueC=1, valueHidden=1, policyMapLen=1, wdlOutputs=3, all
weights zero, policy map [0]. -/
def exBytes : List Nat :=
  [76, 67, 48, 74] ++ le32 1 ++
  le32 1 ++ le32 1 ++ le32 0 ++ le32 1 ++ le32 1 ++ le32 1 ++ le32 1 ++
  le32 3 ++
  convRecB ++
  convRecB ++ convRecB ++ convRecB ++
  denseRec1B ++ denseRec3B ++
  le32 1 ++ le32 0

/-- Device state with an always-succeeding oracle and empty ledger. -/
def dev0 : Dev := { ok := fun _ => true }

/-- Result of loading exBytes on an always-succeeding device. -/
def exCreate : CResult × Dev := create_net true (some exBytes) dev0

/-- The net loaded from exBytes. -/
def exNet : SyclNet :=
  match exCreate.1 with
  | .ret (some n) => n
  | _ => {}

/-- An LC0J v1 file whose single residual block carries an SE record
with a mismatched w1 element count (2, while hidden*channels = 1); all
other records are well-formed and the stream ends exactly at EOF. -/
def seMismatchBytes : List Nat :=
  [76, 67, 48, 74] ++ le32 1 ++
  le32 1 ++ le32 1 ++ le32 1 ++ le32 1 ++ le32 1 ++ le32 1 ++ le32 1 ++
  le32 3 ++
  convRecB ++
  convRecB ++ convRecB ++
  [1] ++ le32 1 ++ le32 1 ++
  (le32 2 ++ fzeros 2) ++
  (le32 1 ++ fzeros 1) ++
  (le32 2 ++ fzeros 2) ++
  (le32 2 ++ fzeros 2) ++
  convRecB ++ convRecB ++ convRecB ++
  denseRec1B ++ denseRec3B ++
  le32 1 ++ le32 0

/-- Result of loading seMismatchBytes on an always-succeeding device. -/
def seMismatchCreate : CResult × Dev :=
  create_net true (some seMismatchBytes) dev0

/-- The net loaded from seMismatchBytes. -/
def seMismatchNet : SyclNet :=
  match seMismatchCreate.1 with
  | .ret (some n) => n
  | _ => {}

/-- A bare SE record with presence flag 1, hidden = 1, channels = 1,
and w1 of declared length 2 (mismatching hidden*channels = 1); b1, w2,
b2 have the counts the declared dimensions imply. -/
def seRecBytes : List Nat :=
  [1] ++ le32 1 ++ le32 1 ++
  (le32 2 ++ fzeros 2) ++
  (le32 1 ++ fzeros 1) ++
  (le32 2 ++ fzeros 2) ++
  (le32 2 ++ fzeros 2)

/-- A malformed LC0J v1 file: the header declares policyC = 2 but the
policy-output convolution record has outC = 1, so create_net fails at
the policyOut.outC check after loading (and uploading) four
convolution records. -/
def rollbackBytes : List Nat :=
  [76, 67, 48, 74] ++ le32 1 ++
  le32 1 ++ le32 1 ++ le32 0 ++ le32 2 ++ le32 1 ++ le32 1 ++ le32 1 ++
  le32 3 ++
  convRecB ++
  convRecB ++ convRecB ++ convRecB

/-- The trivial positive stand-in for exp used by witnesses. -/
def ex1 : ℚ → ℚ := fun _ => 1

/-- A concrete 1x1x1 conv layer with zero weight and bias. -/
def cl1 : ConvLayer :=
  { inC := 1, outC := 1, k := 1, d_w := some ⟨0, [0]⟩, d_b := some ⟨1, [0]⟩,
    params := 2 }

/-- A concrete 1-in 1-out dense layer with zero weight and bias. -/
def dl1 : DenseLayer :=
  { inD := 1, outD := 1, d_w := some ⟨2, [0]⟩, d_b := some ⟨3, [0]⟩,
    params := 2 }

/-- A concrete 1-in 3-out dense layer with zero weights and biases. -/
def dl3 : DenseLayer :=
  { inD := 1, outD := 3, d_w := some ⟨4, [0, 0, 0]⟩,
    d_b := some ⟨5, [0, 0, 0]⟩, params := 6 }

/-- A concrete net whose inputC is 112 (the value eval_one requires);
all layers are tiny with zero weights, the policy map is [0]. -/
def net112 : SyclNet :=
  { inputC := 112, trunkC := 1, blocks := 0, policyC := 1, valueC := 1,
    valueHidden := 1, policySize := 1, policyMapLen := 1,
    inputLayer := cl1, tower := [], policyStem := cl1, policyOut := cl1,
    valueConv := cl1, valueFc1 := dl1, valueFc2 := dl3,
    d_policyMap := some ⟨6, [0]⟩ }

/-- A concrete residual block carrying an SE unit (channels = 1). -/
def seBlock : ResidualBlock :=
  { conv1 := cl1, conv2 := cl1, hasSe := true,
    se := { channels := 1, hidden := 1, d_w1 := some ⟨7, [0]⟩,
            d_b1 := some ⟨8, [0]⟩, d_w2 := some ⟨9, [0, 0]⟩,
            d_b2 := some ⟨10, [0, 0]⟩, params := 6 } }

/-- Value contributed by one ky row of the 3x3 neighborhood, with the
weight index entering that row at wi (used to specify conv3x3Row). -/
def convRowTerm (input w : Nat → ℚ) (inBase wBase row col ky wi : Nat) : ℚ :=
  if (row : Int) + (ky : Int) - 1 < 0 ∨ 8 ≤ (row : Int) + (ky : Int) - 1 then 0
  else
    ∑ kx ∈ Finset.range 3,
      (if (col : Int) + (kx : Int) - 1 < 0 ∨ 8 ≤ (col : Int) + (kx : Int) - 1 then 0
       else input (inBase + ((row : Int) + (ky : Int) - 1).toNat * 8 +
              ((col : Int) + (kx : Int) - 1).toNat) * w (wBase + (wi + kx)))

/-- The identity embedding of indices as rationals (a concrete input
tensor for witness instantiations). -/
def idQ : Nat → ℚ := fun i => (i : ℚ)

/-- The all-ones tensor (a concrete weight tensor for witness
instantiations). -/
def oneQ : Nat → ℚ := fun _ => 1

-- ------------------------------------------------------------------
-- Theorems
-- ------------------------------------------------------------------

/-- The inner kx loop of conv3x3Row from an arbitrary state: it adds
the in-range products and always advances the weight index by exactly
3, one step per kx iteration. -/
theorem conv3x3InnerRow (input w : Nat → ℚ) (inBase wBase row col : Nat)
    (ky : Nat) (st : ℚ × Nat) :
    (List.range 3).foldl
      (fun st2 kx =>
        if (col : Int) + (kx : Int) - 1 < 0 ∨ 8 ≤ (col : Int) + (kx : Int) - 1 then
          (st2.1, st2.2 + 1)
        else
          (st2.1 + input (inBase + ((row : Int) + (ky : Int) - 1).toNat * 8 +
              ((col : Int) + (kx : Int) - 1).toNat) * w (wBase + st2.2),
           st2.2 + 1))
      st =
    (st.1 + ∑ kx ∈ Finset.range 3,
        (if (col : Int) + (kx : Int) - 1 < 0 ∨ 8 ≤ (col : Int) + (kx : Int) - 1 then 0
         else input (inBase + ((row : Int) + (ky : Int) - 1).toNat * 8 +
                ((col : Int) + (kx : Int) - 1).toNat) * w (wBase + (st.2 + kx))),
     st.2 + 3) := by
  rw [Finset.sum_range_succ, Finset.sum_range_succ, Finset.sum_range_succ,
    Finset.sum_range_zero]
  simp only [show List.range 3 = [0, 1, 2] from rfl, List.foldl]
  split_ifs <;> (simp only [Prod.mk.injEq]; constructor) <;>
    (try simp only [Nat.add_assoc]) <;> norm_num <;> try ring

/-- One ky iteration of the conv3x3 loops: whether or not the row is
inside the board, the accumulator gains convRowTerm and the weight
index advances by 3. -/
theorem conv3x3Row_eq (input w : Nat → ℚ) (inBase wBase row col : Nat)
    (st : ℚ × Nat) (ky : Nat) :
    conv3x3Row input w inBase wBase row col st ky =
      (st.1 + convRowTerm input w inBase wBase row col ky st.2, st.2 + 3) := by
  by_cases h : (row : Int) + (ky : Int) - 1 < 0 ∨ 8 ≤ (row : Int) + (ky : Int) - 1
  · simp only [conv3x3Row, convRowTerm, if_pos h]
    simp
  · simp only [conv3x3Row, convRowTerm, if_neg h]
    rw [conv3x3InnerRow]

/-- conv3x3Cell decomposes into row contributions, the ky-th row
entering the kernel weights at index 3*ky. -/
theorem conv3x3Cell_rows (input w : Nat → ℚ) (inBase wBase row col : Nat) :
    conv3x3Cell input w inBase wBase row col =
      ∑ ky ∈ Finset.range 3,
        convRowTerm input w inBase wBase row col ky (3 * ky) := by
  rw [Finset.sum_range_succ, Finset.sum_range_succ, Finset.sum_range_succ,
    Finset.sum_range_zero]
  simp only [conv3x3Cell, show List.range 3 = [0, 1, 2] from rfl, List.foldl,
    conv3x3Row_eq]

/-- Reindex a sum over the offsets -1..1 as a sum over 0..2. -/
theorem sum_Icc3 (g : ℤ → ℚ) :
    ∑ d ∈ Finset.Icc (-1 : ℤ) 1, g d = ∑ k ∈ Finset.range 3, g ((k : ℤ) - 1) := by
  rw [show Finset.Icc (-1 : ℤ) 1 = {-1, 0, 1} from by decide]
  rw [Finset.sum_range_succ, Finset.sum_range_succ, Finset.sum_range_succ,
    Finset.sum_range_zero]
  rw [Finset.sum_insert (by decide), Finset.sum_insert (by decide),
    Finset.sum_singleton]
  norm_num
  ring

/-- The per-input-channel 3x3 cell equals the padded neighborhood sum
over offsets -1..1, with the weight index aligned to the offset. -/
theorem conv3x3Cell_spec (input w : Nat → ℚ) (inBase wBase row col : Nat) :
    conv3x3Cell input w inBase wBase row col =
      ∑ dy ∈ Finset.Icc (-1 : ℤ) 1, ∑ dx ∈ Finset.Icc (-1 : ℤ) 1,
        (if 0 ≤ (row : ℤ) + dy ∧ (row : ℤ) + dy < 8 ∧
            0 ≤ (col : ℤ) + dx ∧ (col : ℤ) + dx < 8 then
          input (inBase + ((row : ℤ) + dy).toNat * 8 + ((col : ℤ) + dx).toNat) *
            w (wBase + ((dy + 1).toNat * 3 + (dx + 1).toNat))
        else 0) := by
  simp only [conv3x3Cell_rows, sum_Icc3]
  refine Finset.sum_congr rfl ?_
  intro ky hky
  rw [convRowTerm]
  by_cases hr : (row : Int) + (ky : Int) - 1 < 0 ∨ 8 ≤ (row : Int) + (ky : Int) - 1
  · rw [if_pos hr]
    refine (Finset.sum_eq_zero ?_).symm
    intro kx hkx
    rw [if_neg]
    omega
  · rw [if_neg hr]
    refine Finset.sum_congr rfl ?_
    intro kx hkx
    by_cases hc : (col : Int) + (kx : Int) - 1 < 0 ∨ 8 ≤ (col : Int) + (kx : Int) - 1
    · rw [if_pos hc, if_neg]
      omega
    · rw [if_neg hc, if_pos (by omega)]
      congr 1 <;> congr 1 <;> omega

/-- A foldl accumulation over List.range is the Finset.range sum. -/
theorem foldl_add_eq_sum (f : Nat → ℚ) :
    ∀ (n : Nat) (init : ℚ),
      (List.range n).foldl (fun a i => a + f i) init =
        init + ∑ i ∈ Finset.range n, f i := by
  intro n
  induction n with
  | zero => intro init; simp
  | succ m ih =>
    intro init
    rw [List.range_succ, List.foldl_append, ih, Finset.sum_range_succ]
    simp
    ring

/-- C7: for every 3x3 convolution, output channel oc and square
(row, col), the output equals the sum over input channels ic and
kernel offsets (dy, dx) in -1..1 of
input[ic][row+dy][col+dx] * w[oc][ic][dy+1][dx+1], where a neighbor
with row+dy or col+dx outside 0..7 contributes 0 (zero padding, not
wrap-around), and the weight index stays aligned with its offset
across skipped out-of-range positions. -/
theorem conv3x3_padding (input w : Nat → ℚ) (inC outC oc row col : Nat)
    (hoc : oc < outC) (hrow : row < 8) (hcol : col < 8) :
    k_conv3x3_no_bias input w inC outC (oc * 64 + row * 8 + col) =
      ∑ ic ∈ Finset.range inC, ∑ dy ∈ Finset.Icc (-1 : ℤ) 1,
        ∑ dx ∈ Finset.Icc (-1 : ℤ) 1,
          (if 0 ≤ (row : ℤ) + dy ∧ (row : ℤ) + dy < 8 ∧
              0 ≤ (col : ℤ) + dx ∧ (col : ℤ) + dx < 8 then
            input (ic * 64 + ((row : ℤ) + dy).toNat * 8 + ((col : ℤ) + dx).toNat) *
              w (oc * inC * 9 + ic * 9 + ((dy + 1).toNat * 3 + (dx + 1).toNat))
          else 0) := by
  have hlt : oc * 64 + row * 8 + col < outC * 64 := by
    have h1 : oc + 1 ≤ outC := hoc
    calc oc * 64 + row * 8 + col < oc * 64 + 64 := by omega
    _ = (oc + 1) * 64 := by ring
    _ ≤ outC * 64 := Nat.mul_le_mul_right 64 h1
  simp only [k_conv3x3_no_bias, if_pos hlt]
  rw [show (oc * 64 + row * 8 + col) / 64 = oc from by omega,
    show (oc * 64 + row * 8 + col) % 64 = row * 8 + col from by omega,
    show (row * 8 + col) / 8 = row from by omega,
    show (row * 8 + col) % 8 = col from by omega]
  rw [foldl_add_eq_sum, zero_add]
  exact Finset.sum_congr rfl fun ic _ => conv3x3Cell_spec input w (ic * 64)
    (oc * inC * 9 + ic * 9) row col

/-- Witness for C7 at oc = row = col = 0 on a 1-channel convolution
with input i ↦ i and all-one weights. -/
theorem conv3x3_padding_w :
    (0 < 1 ∧ (0 : Nat) < 8 ∧ (0 : Nat) < 8) ∧
    k_conv3x3_no_bias idQ oneQ 1 1 (0 * 64 + 0 * 8 + 0) =
      ∑ ic ∈ Finset.range 1, ∑ dy ∈ Finset.Icc (-1 : ℤ) 1,
        ∑ dx ∈ Finset.Icc (-1 : ℤ) 1,
          (if 0 ≤ ((0 : Nat) : ℤ) + dy ∧ ((0 : Nat) : ℤ) + dy < 8 ∧
              0 ≤ ((0 : Nat) : ℤ) + dx ∧ ((0 : Nat) : ℤ) + dx < 8 then
            idQ (ic * 64 + (((0 : Nat) : ℤ) + dy).toNat * 8 +
                (((0 : Nat) : ℤ) + dx).toNat) *
              oneQ (0 * 1 * 9 + ic * 9 + ((dy + 1).toNat * 3 + (dx + 1).toNat))
          else 0) :=
  ⟨by norm_num,
   conv3x3_padding idQ oneQ 1 1 0 0 0
     (by norm_num) (by norm_num) (by norm_num)⟩

/-- C6: for every residual block with a squeeze-excite unit, channel ch
and square sq, the block output is
relu(sigmoid(gate[ch]) * (convOut[sq] + bias[ch]) + residual[sq] +
offset[ch]), where gate is SE fc2 output index ch, offset is fc2
output index ch + channels, bias is conv2's bias, and residual is the
block's input activation. -/
theorem se_apply_block (ex : ℚ → ℚ) (b : ResidualBlock) (cur : Nat → ℚ)
    (ch sq : Nat) (hse : b.hasSe = true) (hch : ch < b.conv2.outC.toNat)
    (hsq : sq < 64) :
    blockStep ex b cur (ch * 64 + sq) =
      relu (sigmoid ex (blockSeGates b cur ch) *
          (blockConv2Out b cur (ch * 64 + sq) + bufFn b.conv2.d_b ch) +
        cur (ch * 64 + sq) + blockSeGates b cur (ch + b.conv2.outC.toNat)) := by
  have hlt : ch * 64 + sq < b.conv2.outC.toNat * 64 := by
    have h1 : ch + 1 ≤ b.conv2.outC.toNat := hch
    calc ch * 64 + sq < ch * 64 + 64 := by omega
    _ = (ch + 1) * 64 := by ring
    _ ≤ b.conv2.outC.toNat * 64 := Nat.mul_le_mul_right 64 h1
  unfold blockStep
  rw [hse, if_neg (by simp : ¬(true = false))]
  simp only [k_se_apply, if_pos hlt]
  rw [show (ch * 64 + sq) / 64 = ch from by omega]

unseal Rat.add Rat.mul Rat.inv Rat.sub Rat.ofScientific in
/-- Witness for C6 on a concrete SE block with channels = 1, at
channel 0 and square 0. -/
theorem se_apply_block_w :
    (seBlock.hasSe = true ∧ 0 < seBlock.conv2.outC.toNat ∧ (0 : Nat) < 64) ∧
    blockStep ex1 seBlock oneQ (0 * 64 + 0) =
      relu (sigmoid ex1 (blockSeGates seBlock oneQ 0) *
          (blockConv2Out seBlock oneQ (0 * 64 + 0) + bufFn seBlock.conv2.d_b 0) +
        oneQ (0 * 64 + 0) + blockSeGates seBlock oneQ (0 + seBlock.conv2.outC.toNat)) :=
  ⟨⟨rfl, by decide, by decide⟩,
   se_apply_block ex1 seBlock oneQ 0 0 rfl (by decide) (by decide)⟩

/-- The three softmax3 outputs always sum to exactly 1 when the
exponential is positive (in exact arithmetic the s > 0 guard is then
taken and the normalization is exact). -/
theorem softmax3_sum (ex : ℚ → ℚ) (hex : ∀ y : ℚ, 0 < ex y) (x0 x1 x2 : ℚ) :
    (softmax3 ex x0 x1 x2).1 + (softmax3 ex x0 x1 x2).2.1 +
      (softmax3 ex x0 x1 x2).2.2 = 1 := by
  simp only [softmax3]
  have h0 := hex (x0 - max x0 (max x1 x2))
  have h1 := hex (x1 - max x0 (max x1 x2))
  have h2 := hex (x2 - max x0 (max x1 x2))
  have hs : 0 < ex (x0 - max x0 (max x1 x2)) + ex (x1 - max x0 (max x1 x2)) +
      ex (x2 - max x0 (max x1 x2)) := by linarith
  rw [if_pos hs, if_pos hs, if_pos hs]
  field_simp

/-- C5: for every successful predict call, the WDL triple is the
softmax of the three value-head logits (softmax3 subtracts the maximum
logit before exponentiating, as the source does), the returned scalar
equals exactly wdlOut[0] - wdlOut[2], and the three WDL entries sum
exactly to 1 whenever the exponential is positive (the exact-
arithmetic form of "within floating-point tolerance of 1.0"). -/
theorem softmax_wdl_spec (ex : ℚ → ℚ) (net : SyclNet) (enc : List ℚ)
    (cIn cPol cLog : Bool) (pol : List ℚ) (wdl : ℚ × ℚ × ℚ) (v : ℚ)
    (hex : ∀ y : ℚ, 0 < ex y)
    (h : eval_one ex net enc cIn cPol cLog = some (pol, wdl, v)) :
    wdl = softmax3 ex (valueLogitsOf ex net enc 0) (valueLogitsOf ex net enc 1)
        (valueLogitsOf ex net enc 2) ∧
    v = wdl.1 - wdl.2.2 ∧
    wdl.1 + wdl.2.1 + wdl.2.2 = 1 := by
  unfold eval_one at h
  split_ifs at h
  simp only [Option.some.injEq, Prod.mk.injEq] at h
  obtain ⟨hp, hw, hv⟩ := h
  subst hw
  refine ⟨rfl, hv.symm, softmax3_sum ex hex _ _ _⟩

unseal Rat.add Rat.mul Rat.inv Rat.sub Rat.ofScientific in
/-- Witness for C5 on the concrete net112: equal logits give the
uniform WDL triple, value 0, and sum exactly 1. -/
theorem softmax_wdl_spec_w :
    (∀ y : ℚ, 0 < ex1 y) ∧
    eval_one ex1 net112 [] true true true = some ([0], (1/3, 1/3, 1/3), 0) ∧
    (((1 : ℚ)/3, (1 : ℚ)/3, (1 : ℚ)/3) : ℚ × ℚ × ℚ) =
      softmax3 ex1 (valueLogitsOf ex1 net112 [] 0) (valueLogitsOf ex1 net112 [] 1)
        (valueLogitsOf ex1 net112 [] 2) ∧
    (0 : ℚ) = ((1 : ℚ)/3, (1 : ℚ)/3, (1 : ℚ)/3).1 -
      ((1 : ℚ)/3, (1 : ℚ)/3, (1 : ℚ)/3).2.2 ∧
    ((1 : ℚ)/3, (1 : ℚ)/3, (1 : ℚ)/3).1 + ((1 : ℚ)/3, (1 : ℚ)/3, (1 : ℚ)/3).2.1 +
      ((1 : ℚ)/3, (1 : ℚ)/3, (1 : ℚ)/3).2.2 = 1 :=
  ⟨fun y => by norm_num [ex1], by decide,
   softmax_wdl_spec ex1 net112 [] true true true [0] (1/3, 1/3, 1/3) 0
     (fun y => by norm_num [ex1]) (by decide)⟩

/-- C4: in the policy-index remap, every output slot i below
policySize equals the policy-plane value at the mapped index when that
index lies inside [0, policyC*64), and exactly 0 otherwise; the host
policy list returns exactly these slots.  (policyOut.outC = policyC is
the load-time invariant checked by create_net.) -/
theorem policy_map_remap (ex : ℚ → ℚ) (net : SyclNet) (enc : List ℚ) (i : Nat)
    (hi : i < net.policySize.toNat) (hpc : net.policyOut.outC = net.policyC) :
    (policyListOf ex net enc).getD i 0 = policyMappedOf ex net enc i ∧
    policyMappedOf ex net enc i =
      (if 0 ≤ ibufFn net.d_policyMap i ∧
          ibufFn net.d_policyMap i < net.policyC * 64 then
        policyPlanesOf ex net enc (ibufFn net.d_policyMap i).toNat
      else 0) := by
  constructor
  · simp [policyListOf, List.getD_eq_getElem?_getD, List.getElem?_map,
      List.getElem?_range, hi]
  · simp only [policyMappedOf, k_policy_map, if_pos hi, hpc]

unseal Rat.add Rat.mul Rat.inv Rat.sub Rat.ofScientific in
/-- Witness for C4 on net112 at slot 0 (the policy map sends 0 to
plane index 0, which is in range). -/
theorem policy_map_remap_w :
    (0 < net112.policySize.toNat ∧ net112.policyOut.outC = net112.policyC) ∧
    ((policyListOf ex1 net112 []).getD 0 0 = policyMappedOf ex1 net112 [] 0 ∧
     policyMappedOf ex1 net112 [] 0 =
       (if 0 ≤ ibufFn net112.d_policyMap 0 ∧
           ibufFn net112.d_policyMap 0 < net112.policyC * 64 then
         policyPlanesOf ex1 net112 [] (ibufFn net112.d_policyMap 0).toNat
       else 0)) :=
  ⟨⟨by decide, by decide⟩, policy_map_remap ex1 net112 [] 0 (by decide) (by decide)⟩

/-- C1 (amended): for a model whose inputC equals 112, a predict call
with correctly sized buffers and no device-copy failure performs the
forward pass, fills both output buffers, and returns win minus loss
(the first WDL entry minus the third). -/
theorem predict_forward_on_112 (ex : ℚ → ℚ) (net : SyclNet)
    (enc pol wdl : List ℚ) (h112 : net.inputC = 112)
    (he : (enc.length : Int) = net.inputC * 64)
    (hp : (pol.length : Int) = net.policySize)
    (hw : (wdl.length : Int) = 3) :
    nativePredict ex (some net) (some enc) (some pol) (some wdl) true true true =
      ((softmax3 ex (valueLogitsOf ex net enc 0) (valueLogitsOf ex net enc 1)
          (valueLogitsOf ex net enc 2)).1 -
        (softmax3 ex (valueLogitsOf ex net enc 0) (valueLogitsOf ex net enc 1)
          (valueLogitsOf ex net enc 2)).2.2,
       some (policyListOf ex net enc),
       some [(softmax3 ex (valueLogitsOf ex net enc 0)
           (valueLogitsOf ex net enc 1) (valueLogitsOf ex net enc 2)).1,
         (softmax3 ex (valueLogitsOf ex net enc 0) (valueLogitsOf ex net enc 1)
           (valueLogitsOf ex net enc 2)).2.1,
         (softmax3 ex (valueLogitsOf ex net enc 0) (valueLogitsOf ex net enc 1)
           (valueLogitsOf ex net enc 2)).2.2]) := by
  simp only [nativePredict, eval_one, he, hp, hw, h112]
  norm_num

set_option maxRecDepth 40000 in
/-- Witness for C1's amended theorem on net112 with a 7168-element
input and correctly sized outputs. -/
theorem predict_forward_on_112_w :
    (net112.inputC = 112 ∧
     ((List.replicate 7168 (0 : ℚ)).length : Int) = net112.inputC * 64 ∧
     ((([0] : List ℚ)).length : Int) = net112.policySize ∧
     ((([0, 0, 0] : List ℚ)).length : Int) = 3) ∧
    nativePredict ex1 (some net112) (some (List.replicate 7168 0)) (some [0])
      (some [0, 0, 0]) true true true =
      ((softmax3 ex1 (valueLogitsOf ex1 net112 (List.replicate 7168 0) 0)
          (valueLogitsOf ex1 net112 (List.replicate 7168 0) 1)
          (valueLogitsOf ex1 net112 (List.replicate 7168 0) 2)).1 -
        (softmax3 ex1 (valueLogitsOf ex1 net112 (List.replicate 7168 0) 0)
          (valueLogitsOf ex1 net112 (List.replicate 7168 0) 1)
          (valueLogitsOf ex1 net112 (List.replicate 7168 0) 2)).2.2,
       some (policyListOf ex1 net112 (List.replicate 7168 0)),
       some [(softmax3 ex1 (valueLogitsOf ex1 net112 (List.replicate 7168 0) 0)
           (valueLogitsOf ex1 net112 (List.replicate 7168 0) 1)
           (valueLogitsOf ex1 net112 (List.replicate 7168 0) 2)).1,
         (softmax3 ex1 (valueLogitsOf ex1 net112 (List.replicate 7168 0) 0)
           (valueLogitsOf ex1 net112 (List.replicate 7168 0) 1)
           (valueLogitsOf ex1 net112 (List.replicate 7168 0) 2)).2.1,
         (softmax3 ex1 (valueLogitsOf ex1 net112 (List.replicate 7168 0) 0)
           (valueLogitsOf ex1 net112 (List.replicate 7168 0) 1)
           (valueLogitsOf ex1 net112 (List.replicate 7168 0) 2)).2.2]) :=
  ⟨⟨rfl, by rw [List.length_replicate]; rfl, rfl, rfl⟩,
   predict_forward_on_112 ex1 net112 (List.replicate 7168 0) [0] [0, 0, 0]
     rfl (by rw [List.length_replicate]; rfl) rfl rfl⟩

set_option maxRecDepth 40000 in
unseal Rat.add Rat.mul Rat.inv Rat.sub Rat.ofScientific in
/-- Counterexample to C1 as stated: exNet is a successfully loaded
model (from the well-formed file exBytes) with inputC = 1; a predict
call with correctly sized buffers and no device failure nevertheless
fails — eval_one rejects every model whose inputC differs from 112 —
so predict does not perform the forward pass "for every model,
regardless of the model's inputC value". -/
theorem predict_not_regardless_of_inputC :
    exCreate.1 = .ret (some exNet) ∧
    exNet.inputC = 1 ∧
    ((List.replicate 64 (0 : ℚ)).length : Int) = exNet.inputC * 64 ∧
    ((([0] : List ℚ)).length : Int) = exNet.policySize ∧
    ((([0, 0, 0] : List ℚ)).length : Int) = 3 ∧
    eval_one ex1 exNet (List.replicate 64 0) true true true = none ∧
    nativePredict ex1 (some exNet) (some (List.replicate 64 0)) (some [0])
      (some [0, 0, 0]) true true true = (0, some [0], some [0, 0, 0]) := by
  refine ⟨by decide, by decide, by decide, by decide, by decide, by decide, by decide⟩

/-- C8: every nativePredict call either fully succeeds (non-null
handle and arrays, all three lengths correct, eval_one returns a
result, and both output arrays are overwritten with that result) or
returns 0.0 with policyOut and wdlOut exactly as they were — no
partial output is ever written on failure. -/
theorem predict_failure_no_write (ex : ℚ → ℚ) (h : Option SyclNet)
    (enc pol wdl : Option (List ℚ)) (cIn cPol cLog : Bool) :
    (∃ net encA polA wdlA r,
      h = some net ∧ enc = some encA ∧ pol = some polA ∧ wdl = some wdlA ∧
      eval_one ex net encA cIn cPol cLog = some r ∧
      nativePredict ex h enc pol wdl cIn cPol cLog =
        (r.2.2, some r.1, some [r.2.1.1, r.2.1.2.1, r.2.1.2.2])) ∨
    nativePredict ex h enc pol wdl cIn cPol cLog = (0, pol, wdl) := by
  cases h with
  | none => right; rfl
  | some net =>
  cases enc with
  | none => right; rfl
  | some encA =>
  cases pol with
  | none => right; rfl
  | some polA =>
  cases wdl with
  | none => right; rfl
  | some wdlA =>
  by_cases he : (encA.length : Int) = net.inputC * 64
  case neg => right; simp [nativePredict, he]
  by_cases hp : (polA.length : Int) = net.policySize
  case neg => right; simp [nativePredict, he, hp]
  by_cases hw : (wdlA.length : Int) = 3
  case neg => right; simp [nativePredict, he, hp, hw]
  cases heval : eval_one ex net encA cIn cPol cLog with
  | none => right; simp [nativePredict, he, hp, hw, heval]
  | some r =>
    left
    refine ⟨net, encA, polA, wdlA, r, rfl, rfl, rfl, rfl, heval, ?_⟩
    obtain ⟨policy, ⟨w, dd, l⟩, v⟩ := r
    simp [nativePredict, he, hp, hw, heval]

/-- C10: a predict call with a null handle, or a null reference for
any of the three array arguments, returns 0.0 and leaves both output
references untouched, for every oracle value and every array length —
the null case is rejected before any length validation or device
work. -/
theorem predict_null_rejected (ex : ℚ → ℚ) (net : SyclNet)
    (enc pol wdl : Option (List ℚ)) (cIn cPol cLog : Bool) :
    nativePredict ex none enc pol wdl cIn cPol cLog = (0, pol, wdl) ∧
    nativePredict ex (some net) none pol wdl cIn cPol cLog = (0, pol, wdl) ∧
    nativePredict ex (some net) enc none wdl cIn cPol cLog = (0, none, wdl) ∧
    nativePredict ex (some net) enc pol none cIn cPol cLog = (0, pol, none) := by
  refine ⟨rfl, ?_, ?_, ?_⟩
  · cases pol <;> cases wdl <;> rfl
  · cases enc <;> cases wdl <;> rfl
  · cases enc <;> cases pol <;> rfl

set_option maxRecDepth 40000 in
unseal Rat.add Rat.mul Rat.inv Rat.sub Rat.ofScientific in
/-- C2 (code bug): load_se accepts an SE record whose w1 element count
(2) does not match hidden*channels (1): the load succeeds (remaining
stream returned), the unit is marked present, and the mismatched
2-element array is uploaded — the source never validates the four SE
array counts, unlike load_conv and load_dense. -/
theorem load_se_skips_count_validation :
    (load_se seRecBytes 1 0 dev0).2.2.1 = some [] ∧
    (load_se seRecBytes 1 0 dev0).2.1 = true ∧
    (load_se seRecBytes 1 0 dev0).1.hidden *
      (load_se seRecBytes 1 0 dev0).1.channels = 1 ∧
    (((load_se seRecBytes 1 0 dev0).1.d_w1.map DBuf.data).getD []).length = 2 := by
  refine ⟨by decide, by decide, by decide, by decide⟩

set_option maxRecDepth 40000 in
unseal Rat.add Rat.mul Rat.inv Rat.sub Rat.ofScientific in
/-- C3 (code bug): create_net returns a non-null handle for the
malformed file seMismatchBytes, whose SE record has a w1 element count
(2) mismatching hidden*channels (1) — a shape-mismatch malformed file
is accepted, so "for every malformed model file ... create returns
null" fails. -/
theorem create_accepts_se_mismatch :
    seMismatchCreate.1 = .ret (some seMismatchNet) ∧
    (seMismatchNet.tower.getD 0 {}).hasSe = true ∧
    (seMismatchNet.tower.getD 0 {}).se.hidden *
      (seMismatchNet.tower.getD 0 {}).se.channels = 1 ∧
    ((((seMismatchNet.tower.getD 0 {}).se.d_w1.map DBuf.data).getD []).length) = 2 := by
  refine ⟨by decide, by decide, by decide, by decide⟩

set_option maxRecDepth 40000 in
unseal Rat.add Rat.mul Rat.inv Rat.sub Rat.ofScientific in
/-- Rollback on a shape-mismatch the loader does detect: loading
rollbackBytes fails at the policyOut.outC check after 8 device
allocations (4 conv records), and the fail path's destroy_net releases
every one of them exactly once — the final ledger is empty and no
invalid free occurred. -/
theorem create_rollback_on_detected_mismatch :
    (create_net true (some rollbackBytes) dev0).1 = .ret none ∧
    (create_net true (some rollbackBytes) dev0).2.fresh = 8 ∧
    (create_net true (some rollbackBytes) dev0).2.live = [] ∧
    (create_net true (some rollbackBytes) dev0).2.freeErr = false := by
  refine ⟨by decide, by decide, by decide, by decide⟩

/-- The tower list returned by load_tower always has exactly n
entries: loaded blocks, then (on failure) the partially loaded block
and the remaining default entries created by the resize. -/
theorem load_tower_length : ∀ (n : Nat) (s : List Nat) (d : Dev) (mh : Int),
    (load_tower n s d mh).1.length = n := by
  intro n
  induction n with
  | zero => intro s d mh; rfl
  | succ m ih =>
    intro s d mh
    unfold load_tower
    rcases h1 : load_conv s d with ⟨c1, os1, d1⟩
    dsimp only
    cases os1 with
    | none => simp
    | some s1 =>
      rcases h2 : load_conv s1 d1 with ⟨c2, os2, d2⟩
      simp only [h2]
      cases os2 with
      | none => simp
      | some s2 =>
        rcases h3 : load_se s2 c2.outC mh d2 with ⟨se, present, os3, d3, mh3⟩
        simp only [h3]
        cases os3 with
        | none => simp
        | some s3 =>
          rcases h4 : load_tower m s3 d3 mh3 with ⟨rest, os4, d4, mh4⟩
          simp only [h4]
          have hlen := ih s3 d3 mh3
          rw [h4] at hlen
          simp at hlen
          simp [hlen]

/-- Tracing the success path of create_net_body: a returned net
carries exactly the header metadata it was seeded with, policySize
equals policyMapLen, and the tower holds blocks entries. -/
theorem create_net_body_fields (hd : Header) (s : List Nat) (d0 d1 : Dev)
    (net : SyclNet) (h : create_net_body hd s d0 = (.ret (some net), d1)) :
    net.inputC = hd.inputC ∧ net.trunkC = hd.trunkC ∧ net.blocks = hd.blocks ∧
    net.policyC = hd.policyC ∧ net.valueC = hd.valueC ∧
    net.valueHidden = hd.valueHidden ∧
    net.policySize = hd.policyMapLen ∧ net.policyMapLen = hd.policyMapLen ∧
    net.tower.length = hd.blocks.toNat := by
  unfold create_net_body at h
  rcases hc1 : load_conv s d0 with ⟨cIn, os1, dA⟩
  rw [hc1] at h
  dsimp only at h
  cases os1 with
  | none => dsimp only at h; simp at h
  | some s1 =>
  dsimp only at h
  by_cases hb : hd.blocks < 0
  case pos => rw [if_pos hb] at h; simp at h
  rw [if_neg hb] at h
  rcases ht : load_tower hd.blocks.toNat s1 dA 0 with ⟨tower, os2, dB, maxH⟩
  rw [ht] at h
  dsimp only at h
  cases os2 with
  | none => dsimp only at h; simp at h
  | some s2 =>
  dsimp only at h
  rcases hps : load_conv s2 dB with ⟨ps, os3, dC⟩
  rw [hps] at h
  dsimp only at h
  cases os3 with
  | none => dsimp only at h; simp at h
  | some s3 =>
  dsimp only at h
  rcases hpo : load_conv s3 dC with ⟨po, os4, dD⟩
  rw [hpo] at h
  dsimp only at h
  cases os4 with
  | none => dsimp only at h; simp at h
  | some s4 =>
  dsimp only at h
  rcases hvc : load_conv s4 dD with ⟨vc, os5, dE⟩
  rw [hvc] at h
  dsimp only at h
  cases os5 with
  | none => dsimp only at h; simp at h
  | some s5 =>
  dsimp only at h
  by_cases hoc : po.outC ≠ hd.policyC
  case pos => rw [if_pos hoc] at h; simp at h
  rw [if_neg hoc] at h
  by_cases hvcc : vc.outC ≠ hd.valueC
  case pos => rw [if_pos hvcc] at h; simp at h
  rw [if_neg hvcc] at h
  rcases hf1 : load_dense s5 hd.valueHidden dE with ⟨fc1, os6, dF⟩
  rw [hf1] at h
  dsimp only at h
  cases os6 with
  | none => dsimp only at h; simp at h
  | some s6 =>
  dsimp only at h
  rcases hf2 : load_dense s6 3 dF with ⟨fc2, os7, dG⟩
  rw [hf2] at h
  dsimp only at h
  cases os7 with
  | none => dsimp only at h; simp at h
  | some s7 =>
  dsimp only at h
  rcases hri : read_i32 s7 with _ | ⟨me, s8⟩
  · rw [hri] at h; dsimp only at h; simp at h
  rw [hri] at h
  dsimp only at h
  by_cases hme : me ≠ hd.policyMapLen
  case pos => rw [if_pos hme] at h; simp at h
  rw [if_neg hme] at h
  by_cases hmn : me < 0
  case pos => rw [if_pos hmn] at h; simp at h
  rw [if_neg hmn] at h
  rcases hrb : read_bytes (4 * me.toNat) s8 with _ | ⟨mapBytes, s9⟩
  · rw [hrb] at h; dsimp only at h; simp at h
  rw [hrb] at h
  dsimp only at h
  rcases hpm : @sycl_alloc Int dG with ⟨pm, dH⟩
  rw [hpm] at h
  dsimp only at h
  cases pm with
  | none => dsimp only at h; simp at h
  | some pmv =>
  dsimp only at h
  rcases hcp : sycl_copy dH (some pmv) (decodeInts mapBytes) with ⟨okm, pm2, dI⟩
  rw [hcp] at h
  dsimp only at h
  by_cases hok : okm = false
  case pos => rw [if_pos hok] at h; simp at h
  rw [if_neg hok] at h
  by_cases hs9 : s9 ≠ []
  case pos => rw [if_pos hs9] at h; simp at h
  rw [if_neg hs9] at h
  rcases hw1 : @sycl_alloc ℚ dI with ⟨wb1, dJ1⟩
  rw [hw1] at h
  dsimp only at h
  cases wb1 with
  | none => dsimp only at h; simp at h
  | some wv1 =>
  dsimp only at h
  rcases hw2 : @sycl_alloc ℚ dJ1 with ⟨wb2, dJ2⟩
  rw [hw2] at h
  dsimp only at h
  cases wb2 with
  | none => dsimp only at h; simp at h
  | some wv2 =>
  dsimp only at h
  rcases hw3 : @sycl_alloc ℚ dJ2 with ⟨wb3, dJ3⟩
  rw [hw3] at h
  dsimp only at h
  cases wb3 with
  | none => dsimp only at h; simp at h
  | some wv3 =>
  dsimp only at h
  rcases hw4 : @sycl_alloc ℚ dJ3 with ⟨wb4, dJ4⟩
  rw [hw4] at h
  dsimp only at h
  cases wb4 with
  | none => dsimp only at h; simp at h
  | some wv4 =>
  dsimp only at h
  rcases hw5 : @sycl_alloc ℚ dJ4 with ⟨wb5, dJ5⟩
  rw [hw5] at h
  dsimp only at h
  cases wb5 with
  | none => dsimp only at h; simp at h
  | some wv5 =>
  dsimp only at h
  rcases hw6 : @sycl_alloc ℚ dJ5 with ⟨wb6, dJ6⟩
  rw [hw6] at h
  dsimp only at h
  cases wb6 with
  | none => dsimp only at h; simp at h
  | some wv6 =>
  dsimp only at h
  rcases hw7 : @sycl_alloc ℚ dJ6 with ⟨wb7, dJ7⟩
  rw [hw7] at h
  dsimp only at h
  cases wb7 with
  | none => dsimp only at h; simp at h
  | some wv7 =>
  dsimp only at h
  rcases hw8 : @sycl_alloc ℚ dJ7 with ⟨wb8, dJ8⟩
  rw [hw8] at h
  dsimp only at h
  cases wb8 with
  | none => dsimp only at h; simp at h
  | some wv8 =>
  dsimp only at h
  rcases hw9 : @sycl_alloc ℚ dJ8 with ⟨wb9, dJ9⟩
  rw [hw9] at h
  dsimp only at h
  cases wb9 with
  | none => dsimp only at h; simp at h
  | some wv9 =>
  dsimp only at h
  rcases hw10 : @sycl_alloc ℚ dJ9 with ⟨wb10, dJ10⟩
  rw [hw10] at h
  dsimp only at h
  cases wb10 with
  | none => dsimp only at h; simp at h
  | some wv10 =>
  dsimp only at h
  rcases hw11 : @sycl_alloc ℚ dJ10 with ⟨wb11, dJ11⟩
  rw [hw11] at h
  dsimp only at h
  cases wb11 with
  | none => dsimp only at h; simp at h
  | some wv11 =>
  dsimp only at h
  rcases hw12 : @sycl_alloc ℚ dJ11 with ⟨wb12, dJ12⟩
  rw [hw12] at h
  dsimp only at h
  cases wb12 with
  | none => dsimp only at h; simp at h
  | some wv12 =>
  dsimp only at h
  rcases hw13 : @sycl_alloc ℚ dJ12 with ⟨wb13, dJ13⟩
  rw [hw13] at h
  dsimp only at h
  cases wb13 with
  | none => dsimp only at h; simp at h
  | some wv13 =>
  dsimp only at h
  rcases hw14 : @sycl_alloc ℚ dJ13 with ⟨wb14, dJ14⟩
  rw [hw14] at h
  dsimp only at h
  cases wb14 with
  | none => dsimp only at h; simp at h
  | some wv14 =>
  dsimp only at h
  simp only [Prod.mk.injEq, CResult.ret.injEq, Option.some.injEq] at h
  obtain ⟨hnet, hdev⟩ := h
  subst hnet
  refine ⟨rfl, rfl, rfl, rfl, rfl, rfl, rfl, rfl, ?_⟩
  have hlen := load_tower_length hd.blocks.toNat s1 dA 0
  rw [ht] at hlen
  simpa using hlen


/-- C9: for every successfully loaded model, getInfo returns exactly
the 7 integers [inputC, trunkC, blocks, policyC, valueC, policySize,
paramCount] in that order, where the first five equal the header
fields read at load time, policySize equals the header's policyMapLen,
and blocks equals the number of residual blocks actually loaded
(the tower length). -/
theorem getInfo_matches_header (file rest : List Nat) (hd : Header)
    (net : SyclNet) (d0 d1 : Dev)
    (hhdr : parse_header file = some (hd, rest))
    (hcr : create_net true (some file) d0 = (.ret (some net), d1)) :
    nativeGetInfo (some net) =
      some [hd.inputC, hd.trunkC, hd.blocks, hd.policyC, hd.valueC,
            hd.policyMapLen, net.paramCount] ∧
    net.policySize = net.policyMapLen ∧
    net.tower.length = hd.blocks.toNat := by
  unfold create_net at hcr
  rw [if_neg (by simp : ¬(true = false))] at hcr
  dsimp only at hcr
  rw [hhdr] at hcr
  dsimp only at hcr
  by_cases hw : hd.wdlOutputs ≠ 3
  case pos => rw [if_pos hw] at hcr; simp at hcr
  rw [if_neg hw] at hcr
  obtain ⟨h1, h2, h3, h4, h5, h6, h7, h8, h9⟩ :=
    create_net_body_fields hd rest d0 d1 net hcr
  refine ⟨?_, h7.trans h8.symm, h9⟩
  simp [nativeGetInfo, h1, h2, h3, h4, h5, h7]

set_option maxRecDepth 40000 in
unseal Rat.add Rat.mul Rat.inv Rat.sub Rat.ofScientific in
/-- Witness for C9 on the concrete well-formed file exBytes. -/
theorem getInfo_matches_header_w :
    parse_header exBytes =
      some (⟨1, 1, 0, 1, 1, 1, 1, 3⟩, exBytes.drop 40) ∧
    create_net true (some exBytes) dev0 = (.ret (some exNet), exCreate.2) ∧
    (nativeGetInfo (some exNet) =
      some [1, 1, 0, 1, 1, 1, exNet.paramCount] ∧
     exNet.policySize = exNet.policyMapLen ∧
     exNet.tower.length = 0) :=
  ⟨by decide, Prod.ext (by decide) rfl,
   getInfo_matches_header exBytes (exBytes.drop 40) ⟨1, 1, 0, 1, 1, 1, 1, 3⟩
     exNet dev0 exCreate.2 (by decide) (Prod.ext (by decide) rfl)⟩

end LC0J
